import Mathlib

/-!
Shallow embedding of the `ssl_checker` scripts of GAH-Man/MyTools.

Sources embedded here:
- `src/ssl_checker/ssl_check.py` (V1)
- `src/ssl_checker/ssl_checkV2.py` (V2)
- `src/ssl_checker/ssl_checkV3.py` (V3)
- `src/ssl_checker/ssl_checker_with_server_and_website.py` (SW)

Python strings are embedded as `List Char`.  The external world that a run
interacts with (the outcome of each `subprocess.run` call, the success or
failure of each log-file write, wall-clock timestamp strings, and the point
at which a `KeyboardInterrupt` arrives) is passed in as explicit parameters,
so every definition is a pure, executable function of those inputs.
-/

namespace SSLChecker

/-! ## The Certificate Inspector: `check_ssl_certificate`

The function is textually identical in all four scripts
(V1 lines 15-34, V2 lines 15-34, V3 lines 34-53, SW lines 36-55). -/

/-- Outcome of the single `subprocess.run(cmd, capture_output=True, text=True,
timeout=30)` call made by `check_ssl_certificate`.

- `completed rc out err`: the subprocess ran to completion with return code
  `rc`, standard output `out` and standard error `err`;
- `timedOut`: `subprocess.run` raised `subprocess.TimeoutExpired` because the
  command exceeded the 30-second timeout;
- `raisedExc m`: `subprocess.run` raised an exception of class `Exception`
  whose `str` is `m` (caught by the `except Exception as e` clause);
- `raisedBase m`: `subprocess.run` raised a `BaseException` that is not an
  `Exception` (for example `KeyboardInterrupt` from Ctrl+C arriving during
  the 30-second wait); the Python `except Exception` clause does not catch
  these, so they propagate out of `check_ssl_certificate`. -/
inductive SubprocessOutcome where
  | completed (returncode : Int) (stdout stderr : List Char)
  | timedOut
  | raisedExc (msg : List Char)
  | raisedBase (msg : List Char)
deriving DecidableEq, Repr

/-- The fixed `timeout=30` argument of the `subprocess.run` call. -/
def subprocessTimeoutSeconds : Nat := 30

/-- Digit string of a natural number, as Python's `str` renders it. -/
def natChars (n : Nat) : List Char := Nat.toDigits 10 n

/-- Python `str(i)` for an `int` value `i`. -/
def intChars (i : Int) : List Char :=
  if i < 0 then '-' :: natChars i.natAbs else natChars i.natAbs

/-- First fixed fragment of the `bash -c` command line built by
`check_ssl_certificate` (the text before the first interpolation of
`hostname`). -/
def cmdConnect : List Char := ("echo | openssl s_client -connect ".toList)

/-- Fixed fragment between the interpolated `hostname:port` and the second
interpolation of `hostname`. -/
def cmdServername : List Char := (" -servername ".toList)

/-- Fixed tail of the command line, after the second interpolation of
`hostname`. -/
def cmdTail : List Char :=
  (" 2>/dev/null | openssl x509 -noout -subject -issuer -dates -ext subjectAltName".toList)

/-- The string passed to `bash -c` by `check_ssl_certificate`: the Python
f-string interpolates `hostname` (twice) and `port` directly into the
command text, with no quoting or escaping. -/
def buildCmd (hostname : List Char) (port : Int) : List Char :=
  cmdConnect ++ hostname ++ ':' :: intChars port ++ cmdServername ++ hostname ++ cmdTail

/-- Python `str.strip()` (with no argument): drop leading and trailing
whitespace. -/
def strip (s : List Char) : List Char :=
  ((s.dropWhile Char.isWhitespace).reverse.dropWhile Char.isWhitespace).reverse

/-- The literal `"Error: "` that prefixes every caught-failure return value of
`check_ssl_certificate`. -/
def errTag : List Char := ("Error: ".toList)

/-- `check_ssl_certificate(hostname, port)`, as a function of the outcome `o`
of its single subprocess invocation of `buildCmd hostname port`.

`some s` means the Python function returns the string `s`; `none` means the
exception propagates out of the function uncaught (only possible for a
`BaseException` such as `KeyboardInterrupt`, since the source catches
`subprocess.TimeoutExpired` and `Exception`).  The function performs exactly
one subprocess invocation and no retry: its value depends on a single
`SubprocessOutcome`. -/
def check_ssl_certificate (hostname : List Char) (port : Int) :
    SubprocessOutcome → Option (List Char)
  | .completed rc out err =>
      if rc = 0 then some (strip out) else some (errTag ++ strip err)
  | .timedOut => some ("Error: Command timed out".toList)
  | .raisedExc m => some (errTag ++ m)
  | .raisedBase _ => none

/-! ## Python `int()` and `parse_hostname_port` (SW lines 67-80) -/

/-- Value of a nonempty all-digit string, base 10. -/
def digitsToNat (l : List Char) : Nat :=
  l.foldl (fun a c => 10 * a + (c.toNat - '0'.toNat)) 0

/-- Python `int(s)` restricted to the unsigned core: `some` of the value when
`s` is a nonempty string of decimal digits, `none` (a `ValueError`) otherwise.
Python's `int` additionally tolerates surrounding whitespace and underscore
separators; no input exercised by this development uses those forms, so they
are not modelled. -/
def pyNatDigits (l : List Char) : Option Nat :=
  if l ≠ [] ∧ l.all Char.isDigit then some (digitsToNat l) else none

/-- Python `int(s)` on an optionally signed decimal string: `none` models a
`ValueError`. -/
def pyInt (l : List Char) : Option Int :=
  match l with
  | [] => none
  | c :: rest =>
      if c = '-' then (pyNatDigits rest).map (fun n => -(n : Int))
      else if c = '+' then (pyNatDigits rest).map (fun n => (n : Int))
      else (pyNatDigits (c :: rest)).map (fun n => (n : Int))

/-- Result of `parse_hostname_port`: either the parsed `(hostname, port)`
pair, or a `sys.exit` with the given code performed inside the function. -/
inductive ParseOutcome where
  | parsed (hostname : List Char) (port : Int)
  | exitWithCode (code : Nat)
deriving DecidableEq, Repr

/-- `str.rsplit(':', 1)` restricted to its use in `parse_hostname_port`:
`some (h, t)` splits the list at its last `':'` (which belongs to neither
part); `none` when the list contains no `':'`. -/
def rsplitColon : List Char → Option (List Char × List Char)
  | [] => none
  | c :: cs =>
      match rsplitColon cs with
      | some (h, t) => some (c :: h, t)
      | none => if c = ':' then some ([], cs) else none

/-- `parse_hostname_port(hostname_arg)` from
`ssl_checker_with_server_and_website.py` lines 67-80: split the argument at
its last colon; parse the part after it with `int`, exiting with code 1 on a
`ValueError`; an argument without a colon gets default port 443.  No range
check is applied to the parsed port. -/
def parse_hostname_port (hostname_arg : List Char) : ParseOutcome :=
  match rsplitColon hostname_arg with
  | some (hostname, port_str) =>
      match pyInt port_str with
      | some port => .parsed hostname port
      | none => .exitWithCode 1
  | none => .parsed hostname_arg 443

/-! ## Run-level termination outcomes

The polling loops of V1/V2/V3/SW never terminate on their own; a run ends
only by a `KeyboardInterrupt` (modelled as a cancellation point), by a
pre-loop `sys.exit(1)`, or by an uncaught exception.  A cancellation point
`(c, p)` means: `c` poll cycles ran to completion, and the interrupt arrived
when the loop was about to execute step `p` (0-based) of cycle `c + 1`.

Steps of one loop cycle, in source order (identical in V1/V2/V3/SW up to the
absence of the write steps in V1):
  step 0: `check_count += 1` (V2/V3/SW; V1 has no counter)
  step 1: `print(check_header)`
  step 2: `write_to_file(log_filename, check_header)`
  step 3: `result = check_ssl_certificate(...)`
  step 4: `print(result)`
  step 5: `write_to_file(log_filename, result)`
  step 6: `print(separator_line)`
  step 7: `write_to_file(log_filename, separator_line)`
  step 8: `time.sleep(interval)`
-/

/-- How a run of one of the scripts' `main` functions ends.

`exitCode n` is a `sys.exit(n)`; `crash m` is an uncaught exception with
message `m` (the Python process then dies with a traceback); `runsForever`
means no cancellation ever arrives and the loop polls unboundedly. -/
inductive TermOutcome where
  | exitCode (code : Nat)
  | crash (msg : List Char)
  | runsForever
deriving DecidableEq, Repr

/-- The `ValueError` message raised by CPython's `time.sleep` on a negative
argument. -/
def sleepErrMsg : List Char := ("sleep length must be non-negative".toList)

/-- Termination behaviour of V3's `main` (ssl_checkV3.py lines 65-171) as a
function of the parsed `--port` and `--interval` values and of the optional
cancellation point.  Source order of the pre-loop validation (lines 98-104):
the interval check runs first, then the port range check; each failure is
`sys.exit(1)` before the log file is named, before the startup banner, and
before any cycle of the loop (hence before any network call).  With a valid
configuration the loop has no exit besides `KeyboardInterrupt`, which the
handler turns into `sys.exit(0)`; `time.sleep` cannot raise because the
validated interval is a positive `int`. -/
def v3MainOutcome (port interval : Int) (cancel : Option (Nat × Nat)) : TermOutcome :=
  if interval ≤ 0 then .exitCode 1
  else if port ≤ 0 ∨ 65535 < port then .exitCode 1
  else
    match cancel with
    | some _ => .exitCode 0
    | none => .runsForever

/-- Termination behaviour of SW's `main`
(ssl_checker_with_server_and_website.py lines 82-181): the interval is
validated (`sys.exit(1)` when `interval <= 0`), then the combined `--server`
argument goes through `parse_hostname_port`, whose own `sys.exit(1)` fires on
a non-integer port string.  The parsed port's range is never validated: the
loop (and its network calls) starts for any integer port. -/
def swMainOutcome (server : List Char) (interval : Int)
    (cancel : Option (Nat × Nat)) : TermOutcome :=
  if interval ≤ 0 then .exitCode 1
  else
    match parse_hostname_port server with
    | .exitWithCode c => .exitCode c
    | .parsed _ _ =>
        match cancel with
        | some _ => .exitCode 0
        | none => .runsForever

/-- Behaviour of the V2 polling loop (ssl_checkV2.py lines 70-114; V1's loop
is identical for this purpose) once an integer interval has reached it.
V2 performs no sign or range check on the interval, so a negative interval
reaches the loop: cycle 1 runs in full (prints, log writes and one network
call) and then `time.sleep` raises an uncaught `ValueError`, killing the
process — unless the interrupt arrives before the first sleep, i.e. at a
cancellation point `(0, p)` with `p ≤ 8`.  A cancellation point beyond the
crash can never be reached, so the run still ends in the crash in that
case.  A `KeyboardInterrupt` is turned into `sys.exit(0)` by the handler. -/
def v2LoopOutcome (interval : Int) (cancel : Option (Nat × Nat)) : TermOutcome :=
  if interval < 0 then
    match cancel with
    | some (0, p) => if p ≤ 8 then .exitCode 0 else .crash sleepErrMsg
    | some _ => .crash sleepErrMsg
    | none => .crash sleepErrMsg
  else
    match cancel with
    | some _ => .exitCode 0
    | none => .runsForever

/-- Full termination behaviour of V2's `main`: parse the optional interval
argument (exit 1 on `ValueError`), then run the loop. -/
def v2MainOutcome (arg : Option (List Char)) (cancel : Option (Nat × Nat)) : TermOutcome :=
  match arg with
  | some a =>
      match pyInt a with
      | none => .exitCode 1
      | some i => v2LoopOutcome i cancel
  | none => v2LoopOutcome 60 cancel

/-! ## The V2 run trace (ssl_checkV2.py `main`, lines 46-114)

Every `print(...)` and every successful `write_to_file(...)` is recorded as
an event; a failed write records the console error report printed by
`write_to_file`'s `except Exception` handler instead.  Timestamp strings
(`datetime.now().strftime(...)`) are opaque inputs.  The outcome of the
`k`-th `write_to_file` call of the run is given by `wres k` (`none` =
success, `some e` = an exception with message `e`); the string returned by
the inspector on cycle `n` is `results n`. -/

/-- The two output sinks of a V2/V3/SW run. -/
inductive Sink where
  | console
  | logFile
deriving DecidableEq, Repr

/-- One message emitted to one sink. -/
structure Event where
  sink : Sink
  msg : List Char
deriving DecidableEq, Repr

/-- The hostname hardcoded in V1/V2 `main`. -/
def v2Hostname : List Char := ("login.emory.edu".toList)

/-- The port hardcoded in V1/V2 `main`. -/
def v2Port : Int := 443

/-- `"=" * 80`. -/
def eq80 : List Char := List.replicate 80 '='

/-- `"-" * 80`. -/
def dash80 : List Char := List.replicate 80 '-'

/-- The one console message of a V2 run that is never passed to
`write_to_file`: `print("Press Ctrl+C to stop\n")` (line 72). -/
def prompt : List Char := ("Press Ctrl+C to stop\n".toList)

/-- V2 line 52: `f"script_output/ssl_check_{hostname}_{start_time}.log"`. -/
def log_filename (startTime : List Char) : List Char :=
  ("script_output/ssl_check_".toList) ++ v2Hostname ++ '_' :: startTime ++ (".log".toList)

/-- V2 line 63: the key-value block of the startup banner. -/
def header_details (interval : Int) (startTime startedTs : List Char) : List Char :=
  ("Target: ".toList) ++ v2Hostname ++ ':' :: intChars v2Port ++
  ("\nInterval: ".toList) ++ intChars interval ++
  (" seconds\nLog file: ".toList) ++ log_filename startTime ++
  ("\nStarted: ".toList) ++ startedTs

/-- V2 line 67: the full startup banner, printed and written as one string. -/
def startup_msg (interval : Int) (startTime startedTs : List Char) : List Char :=
  eq80 ++ '\n' :: ("SSL Certificate Monitoring Started".toList) ++
  '\n' :: eq80 ++ '\n' :: header_details interval startTime startedTs ++ '\n' :: eq80

/-- V2 line 81: `f"[Check #{check_count}] [{timestamp}] Checking SSL
certificate..."`. -/
def check_header (n : Nat) (ts : List Char) : List Char :=
  ("[Check #".toList) ++ natChars n ++ ("] [".toList) ++ ts ++
  ("] Checking SSL certificate...".toList)

/-- V2 line 102: the final summary line. -/
def final_msg (endTs : List Char) (count : Nat) : List Char :=
  '\n' :: '[' :: endTs ++ ("] SSL certificate monitoring stopped after ".toList) ++
  natChars count ++ (" checks.".toList)

/-- V2 line 106: `f"Results saved to: {log_filename}"`. -/
def savedMsg (startTime : List Char) : List Char :=
  ("Results saved to: ".toList) ++ log_filename startTime

/-- The fixed text that `write_to_file`'s handler prefixes to the exception:
`f"Error writing to file: {e}"` (V2 line 44). -/
def writeErrTag : List Char := ("Error writing to file: ".toList)

/-- Events of the `j`-th `write_to_file(log_filename, content)` call of a
run: on success one log-file event carrying `content`; on failure one
console event carrying the error report (the exception never propagates, so
nothing else happens). -/
def writeEvents (wres : Nat → Option (List Char)) (j : Nat) (content : List Char) :
    List Event :=
  match wres j with
  | none => [⟨Sink.logFile, content⟩]
  | some e => [⟨Sink.console, writeErrTag ++ e⟩]

/-- List concatenation of `f` over `l` (``concat-map``). -/
def flatMapL {α β : Type} : List α → (α → List β) → List β
  | [], _ => []
  | a :: l, f => f a ++ flatMapL l f

/-- Sink events of step `s` of cycle `n` (steps numbered as in the table
above; steps 0, 3 and 8 touch no sink).  Cycle `n` performs the run's
write calls number `3*(n-1)+1`, `3*(n-1)+2` and `3*(n-1)+3` (call 0 is the
startup banner write). -/
def stepEvents (wres : Nat → Option (List Char)) (results cycleTs : Nat → List Char)
    (n s : Nat) : List Event :=
  match s with
  | 1 => [⟨Sink.console, check_header n (cycleTs n)⟩]
  | 2 => writeEvents wres (3 * (n - 1) + 1) (check_header n (cycleTs n))
  | 4 => [⟨Sink.console, results n⟩]
  | 5 => writeEvents wres (3 * (n - 1) + 2) (results n)
  | 6 => [⟨Sink.console, dash80⟩]
  | 7 => writeEvents wres (3 * (n - 1) + 3) dash80
  | _ => []

/-- Sink events of the first `p` steps of cycle `n`; `p = 9` is a complete
cycle. -/
def cycleEventsUpTo (wres : Nat → Option (List Char)) (results cycleTs : Nat → List Char)
    (n p : Nat) : List Event :=
  flatMapL (List.range p) (stepEvents wres results cycleTs n)

/-- Events of V2 `main` before the loop (lines 67-72): print the startup
banner, write it to the log (write call 0), print the Ctrl+C prompt. -/
def startupEvents (wres : Nat → Option (List Char)) (interval : Int)
    (startTime startedTs : List Char) : List Event :=
  [⟨Sink.console, startup_msg interval startTime startedTs⟩] ++
  writeEvents wres 0 (startup_msg interval startTime startedTs) ++
  [⟨Sink.console, prompt⟩]

/-- Value of the `check_count` variable when the interrupt arrives at
cancellation point `(c, p)`: the increment is step 0, so the cancelled
cycle has been counted exactly when `1 ≤ p`. -/
def check_count_at (c p : Nat) : Nat := c + (if 1 ≤ p then 1 else 0)

/-- Number of `check_ssl_certificate` invocations begun when the interrupt
arrives at cancellation point `(c, p)`: the call is step 3, so the cancelled
cycle has invoked the inspector exactly when `4 ≤ p`. -/
def inspector_calls_at (c p : Nat) : Nat := c + (if 4 ≤ p then 1 else 0)

/-- Number of `write_to_file` calls made by the first `p` steps of a cycle
(the writes are steps 2, 5 and 7). -/
def cycleWritesDone (p : Nat) : Nat :=
  (if 3 ≤ p then 1 else 0) + (if 6 ≤ p then 1 else 0) + (if 8 ≤ p then 1 else 0)

/-- Events of V2's `except KeyboardInterrupt` handler (lines 100-113): three
prints, then the same three messages written to the log, then
`sys.exit(0)`.  The reported check count is the value of `check_count` at the
cancellation point. -/
def finalEvents (wres : Nat → Option (List Char)) (startTime endTs : List Char)
    (c p : Nat) : List Event :=
  [⟨Sink.console, final_msg endTs (check_count_at c p)⟩,
   ⟨Sink.console, savedMsg startTime⟩,
   ⟨Sink.console, eq80⟩] ++
  writeEvents wres (3 * c + 1 + cycleWritesDone p) (final_msg endTs (check_count_at c p)) ++
  writeEvents wres (3 * c + 2 + cycleWritesDone p) (savedMsg startTime) ++
  writeEvents wres (3 * c + 3 + cycleWritesDone p) eq80

/-- Complete sink-event trace of a V2 run that is cancelled at point
`(c, p)`: startup, `c` complete cycles, the first `p` steps of cycle
`c + 1`, then the `KeyboardInterrupt` handler. -/
def runTrace (interval : Int) (startTime startedTs endTs : List Char)
    (cycleTs results : Nat → List Char) (wres : Nat → Option (List Char))
    (c p : Nat) : List Event :=
  startupEvents wres interval startTime startedTs ++
  flatMapL (List.range c) (fun k => cycleEventsUpTo wres results cycleTs (k + 1) 9) ++
  cycleEventsUpTo wres results cycleTs (c + 1) p ++
  finalEvents wres startTime endTs c p

/-- The sequence of messages a trace sends to the console, in order. -/
def consoleMsgs (t : List Event) : List (List Char) :=
  t.filterMap (fun e => match e.sink with
    | Sink.console => some e.msg
    | Sink.logFile => none)

/-- The sequence of messages a trace appends to the log file, in order. -/
def logMsgs (t : List Event) : List (List Char) :=
  t.filterMap (fun e => match e.sink with
    | Sink.console => none
    | Sink.logFile => some e.msg)

/-- Remove every occurrence of the Ctrl+C prompt from a message sequence. -/
def dropPrompt (l : List (List Char)) : List (List Char) :=
  l.filter (fun m => decide (m ≠ prompt))

/-- Remove every message that carries `write_to_file`'s error report (the
messages starting with `"Error writing to file: "`). -/
def dropWriteErr (l : List (List Char)) : List (List Char) :=
  l.filter (fun m => decide (m.take writeErrTag.length ≠ writeErrTag))

/-! ## A minimal model of bash command structure, for the injection property -/

/-- Characters that are special to the shell in the (unquoted) contexts where
`buildCmd` interpolates the hostname. -/
def shellMeta : List Char := [';', '&', '|', '$', '(', ')', '<', '>', ' ']

/-- A host string with its shell metacharacters removed: two hosts "differing
only in shell metacharacters" are two hosts with the same `stripShellMeta`
image. -/
def stripShellMeta (h : List Char) : List Char :=
  h.filter (fun c => decide (c ∉ shellMeta))

/-- Number of unquoted `';'` command separators the shell's parser sees in a
command line.  `buildCmd` contains no quoting, so every `';'` of the string
is a separator: a command with `semicolonCount = k` is parsed by bash into
`k + 1` commands. -/
def semicolonCount (l : List Char) : Nat :=
  l.countP (fun c => decide (c = ';'))

/-! ## Helper lemmas -/

theorem rsplitColon_eq_none (l : List Char) (h : ':' ∉ l) : rsplitColon l = none := by
  induction l with
  | nil => rfl
  | cons c cs ih =>
      have hc : ¬(c = ':') := fun hc => h (by simp [hc])
      have ihs : rsplitColon cs = none := ih (fun hm => h (List.mem_cons_of_mem c hm))
      simp [rsplitColon, ihs, hc]

theorem rsplitColon_append (h ds : List Char) (hds : ':' ∉ ds) :
    rsplitColon (h ++ ':' :: ds) = some (h, ds) := by
  induction h with
  | nil => simp [rsplitColon, rsplitColon_eq_none ds hds]
  | cons c h' ih => simp [rsplitColon, ih]

theorem colon_not_mem_digits (ds : List Char) (h2 : ds.all Char.isDigit) : ':' ∉ ds := by
  intro hm
  have hd := List.all_eq_true.mp h2 _ hm
  exact absurd hd (by decide)

theorem pyNatDigits_all (ds : List Char) (h1 : ds ≠ []) (h2 : ds.all Char.isDigit) :
    pyNatDigits ds = some (digitsToNat ds) := by
  unfold pyNatDigits
  rw [if_pos ⟨h1, h2⟩]

theorem pyInt_digits (d : Char) (rest : List Char) (h2 : (d :: rest).all Char.isDigit) :
    pyInt (d :: rest) = some ((digitsToNat (d :: rest) : Nat) : Int) := by
  have hd : d.isDigit := by
    have := List.all_eq_true.mp h2 d (List.mem_cons_self d rest)
    exact this
  have hminus : ¬(d = '-') := by
    intro h
    subst h
    exact absurd hd (by decide)
  have hplus : ¬(d = '+') := by
    intro h
    subst h
    exact absurd hd (by decide)
  have hbody : pyInt (d :: rest) =
      (if d = '-' then (pyNatDigits rest).map (fun n => -(n : Int))
       else if d = '+' then (pyNatDigits rest).map (fun n => (n : Int))
       else (pyNatDigits (d :: rest)).map (fun n => (n : Int))) := rfl
  rw [hbody, if_neg hminus, if_neg hplus, pyNatDigits_all _ (by simp) h2]
  rfl

/-! ## Claim C6 -/

/-- Claim C6 (confirmed): the combined server argument `"example.com:8443"`
parses to host `"example.com"` and port `8443`; every argument of the form
`host ++ ":" ++ digits` (nonempty digit string) parses to that host and that
integer port — `rsplit(':', 1)` splits at the last colon, and a digit string
contains no colon — and an argument without a colon parses to the whole
argument with default port 443. -/
theorem C6_parse_hostname_port :
    parse_hostname_port ("example.com:8443".toList) =
      ParseOutcome.parsed ("example.com".toList) 8443 ∧
    (∀ (h ds : List Char), ds ≠ [] → ds.all Char.isDigit →
      parse_hostname_port (h ++ ':' :: ds) =
        ParseOutcome.parsed h ((digitsToNat ds : Nat) : Int)) ∧
    (∀ (arg : List Char), ':' ∉ arg →
      parse_hostname_port arg = ParseOutcome.parsed arg 443) := by
  refine ⟨by decide, ?_, ?_⟩
  · intro h ds h1 h2
    cases ds with
    | nil => exact absurd rfl h1
    | cons d rest =>
        have hsplit := rsplitColon_append h (d :: rest) (colon_not_mem_digits _ h2)
        have hint := pyInt_digits d rest h2
        unfold parse_hostname_port
        rw [hsplit]
        simp only [hint]
  · intro arg h
    unfold parse_hostname_port
    rw [rsplitColon_eq_none arg h]

/-- Witness for C6: the general `host:digits` clause evaluated at the
concrete argument `"x:8"`. -/
theorem C6_parse_hostname_port_witness :
    (("8".toList : List Char) ≠ [] ∧ ("8".toList).all Char.isDigit) ∧
    parse_hostname_port (("x".toList) ++ ':' :: ("8".toList)) =
      ParseOutcome.parsed ("x".toList) ((digitsToNat ("8".toList) : Nat) : Int) :=
  ⟨by decide, C6_parse_hostname_port.2.1 ("x".toList) ("8".toList) (by decide) (by decide)⟩

/-! ## Claim C3 -/

/-- Claim C3 counterexample: on the combined-server-argument path, a port
outside `[1, 65535]` does not exit with code 1 — `parse_hostname_port`
accepts `"example.com:99999"` (it checks only integer-ness, never the
range), and the SW `main` then enters the polling loop, making network
calls, instead of exiting. -/
theorem C3_counterexample :
    parse_hostname_port ("example.com:99999".toList) =
      ParseOutcome.parsed ("example.com".toList) 99999 ∧
    (65535 : Int) < 99999 ∧
    swMainOutcome ("example.com:99999".toList) 60 none = TermOutcome.runsForever := by
  decide

/-- Claim C3 as amended: only V3's flag path validates the port range.  On
the V3 path, a port outside `[1, 65535]` or an interval `≤ 0` exits with
code 1 before the loop (and hence before any network call); on the combined
server-argument path, an interval `≤ 0` exits with code 1, but an
out-of-range integer port is accepted and the loop starts; the V1/V2
interval-only path accepts non-positive integer intervals. -/
theorem C3_amended :
    (∀ (port interval : Int) (cancel : Option (Nat × Nat)),
        port < 1 ∨ 65535 < port ∨ interval ≤ 0 →
        v3MainOutcome port interval cancel = TermOutcome.exitCode 1) ∧
    (∀ (server : List Char) (interval : Int) (cancel : Option (Nat × Nat)),
        interval ≤ 0 → swMainOutcome server interval cancel = TermOutcome.exitCode 1) := by
  constructor
  · intro port interval cancel h
    by_cases hi : interval ≤ 0
    · simp [v3MainOutcome, hi]
    · have hp : port ≤ 0 ∨ 65535 < port := by omega
      simp [v3MainOutcome, hi, hp]
  · intro server interval cancel h
    simp [swMainOutcome, h]

/-- Witness for C3 as amended: V3 exits with code 1 on port 0, and SW exits
with code 1 on interval 0. -/
theorem C3_amended_witness :
    ((0 : Int) < 1 ∨ (65535 : Int) < 0 ∨ (60 : Int) ≤ 0) ∧
    v3MainOutcome 0 60 none = TermOutcome.exitCode 1 ∧
    ((0 : Int) ≤ 0) ∧
    swMainOutcome ("h".toList) 0 (some (2, 3)) = TermOutcome.exitCode 1 :=
  ⟨by decide, C3_amended.1 0 60 none (by decide),
   by decide, C3_amended.2 ("h".toList) 0 (some (2, 3)) (by decide)⟩

/-! ## Claim C8 -/

/-- Claim C8 counterexample: a termination path exists that is neither a
clean cancellation (exit 0) nor a configuration validation failure (exit 1
before the loop): V2 run as `python ssl_checkV2.py -5` parses the interval
successfully, runs a full first cycle (network call included), and then
dies from the uncaught `ValueError` raised by `time.sleep(-5)` — the
process terminates with a traceback, not through either claimed path. -/
theorem C8_counterexample :
    pyInt ("-5".toList) = some (-5) ∧
    v2MainOutcome (some ("-5".toList)) none = TermOutcome.crash sleepErrMsg := by
  decide

/-- Claim C8 as amended: on V3's path, exit code 0 occurs exactly on clean
cancellation with a valid configuration, and exit code 1 occurs exactly on a
configuration validation failure; on the V1/V2 path the same holds for runs
whose parsed interval is non-negative; but a V1/V2 run with a negative
integer interval passes configuration parsing and later crashes with an
uncaught `ValueError` from `time.sleep`, so termination-by-crash is a third
path (and the resulting process status, 1, is not tied to configuration
validation). -/
theorem C8_amended :
    (∀ (port interval : Int) (cancel : Option (Nat × Nat)),
        v3MainOutcome port interval cancel = TermOutcome.exitCode 0 ↔
          ¬interval ≤ 0 ∧ ¬(port ≤ 0 ∨ 65535 < port) ∧ cancel ≠ none) ∧
    (∀ (port interval : Int) (cancel : Option (Nat × Nat)),
        v3MainOutcome port interval cancel = TermOutcome.exitCode 1 ↔
          interval ≤ 0 ∨ port ≤ 0 ∨ 65535 < port) ∧
    (∀ (a : List Char) (i : Int) (cancel : Option (Nat × Nat)),
        pyInt a = some i → 0 ≤ i →
        (v2MainOutcome (some a) cancel = TermOutcome.exitCode 0 ↔ cancel ≠ none)) := by
  refine ⟨?_, ?_, ?_⟩
  · intro port interval cancel
    by_cases hi : interval ≤ 0
    · simp [v3MainOutcome, hi]
    · by_cases hp : port ≤ 0 ∨ 65535 < port
      · simp [v3MainOutcome, hi, hp]
      · cases cancel with
        | none => simp [v3MainOutcome, hi, hp]
        | some q => simp [v3MainOutcome, hi, hp]
  · intro port interval cancel
    by_cases hi : interval ≤ 0
    · simp [v3MainOutcome, hi]
    · by_cases hp : port ≤ 0 ∨ 65535 < port
      · simp [v3MainOutcome, hi, hp]
      · cases cancel with
        | none => simp [v3MainOutcome, hi, hp]
        | some q => simp [v3MainOutcome, hi, hp]
  · intro a i cancel ha hi
    have hneg : ¬(i < 0) := by omega
    cases cancel with
    | none => simp [v2MainOutcome, ha, v2LoopOutcome, hneg]
    | some q => simp [v2MainOutcome, ha, v2LoopOutcome, hneg]

/-- Witness for C8 as amended: the V1/V2 clause evaluated on interval
argument `"60"` and no cancellation. -/
theorem C8_amended_witness :
    pyInt ("60".toList) = some 60 ∧ (0 : Int) ≤ 60 ∧
    (v2MainOutcome (some ("60".toList)) none = TermOutcome.exitCode 0 ↔
      (none : Option (Nat × Nat)) ≠ none) :=
  ⟨by decide, by decide, C8_amended.2.2 ("60".toList) 60 none (by decide) (by decide)⟩

/-! ## Claim C1 -/

/-- Claim C1 counterexample: the claim's "Timeout returned exactly when the
handshake or connection exceeds the 30-second timeout" is false, and with it
the claimed categorization of failures into kinds.  `check_ssl_certificate`
returns the very same value, the plain string `"Error: Command timed out"`,
for a genuine timeout and for a completed pipeline that failed with that
text on stderr: the return value is an uncategorized string that does not
determine the failure kind. -/
theorem C1_counterexample :
    check_ssl_certificate v2Hostname 443
        (SubprocessOutcome.completed 1 ([]) ("Command timed out".toList)) =
      some ("Error: Command timed out".toList) ∧
    check_ssl_certificate v2Hostname 443 SubprocessOutcome.timedOut =
      some ("Error: Command timed out".toList) ∧
    SubprocessOutcome.completed 1 ([]) ("Command timed out".toList) ≠
      SubprocessOutcome.timedOut := by
  decide

/-- Claim C1 as amended: a failed check that the function's handlers catch
returns a human-readable string prefixed with `"Error: "` — the stripped
stderr of a non-zero-exit pipeline, the fixed text `"Command timed out"`
when the 30-second subprocess timeout fires, or the exception text — with no
`FailureKind` categorization (the timeout-shaped string can also arise from
non-timeout failures), and no retry is attempted inside the call (the result
is a function of a single subprocess outcome). -/
theorem C1_amended :
    (∀ (hostname : List Char) (port rc : Int) (out err : List Char), rc ≠ 0 →
        check_ssl_certificate hostname port (SubprocessOutcome.completed rc out err) =
          some (errTag ++ strip err)) ∧
    (∀ (hostname : List Char) (port : Int),
        check_ssl_certificate hostname port SubprocessOutcome.timedOut =
          some (errTag ++ ("Command timed out".toList))) ∧
    (∀ (hostname : List Char) (port : Int) (m : List Char),
        check_ssl_certificate hostname port (SubprocessOutcome.raisedExc m) =
          some (errTag ++ m)) ∧
    subprocessTimeoutSeconds = 30 := by
  refine ⟨?_, ?_, ?_, rfl⟩
  · intro hostname port rc out err h
    simp [check_ssl_certificate, h]
  · intro hostname port
    show some ("Error: Command timed out".toList) = some (errTag ++ ("Command timed out".toList))
    decide
  · intro hostname port m
    rfl

/-- Witness for C1 as amended: the non-zero-exit clause evaluated at return
code 1 and stderr `"fail2"`. -/
theorem C1_amended_witness :
    ((1 : Int) ≠ 0) ∧
    check_ssl_certificate v2Hostname v2Port
        (SubprocessOutcome.completed 1 ([]) ("fail2".toList)) =
      some (errTag ++ strip ("fail2".toList)) :=
  ⟨by decide, C1_amended.1 v2Hostname v2Port 1 ([]) ("fail2".toList) (by decide)⟩

/-! ## Claim C10 -/

/-- Claim C10 counterexample: `check_ssl_certificate` does not return a
string for *every* raised exception.  Its `except Exception` clause does not
catch `BaseException`s such as `KeyboardInterrupt` (raised when Ctrl+C
arrives during the subprocess wait), which propagate out of the function
(`none` in the embedding) instead of producing an `"Error:"` string. -/
theorem C10_counterexample :
    check_ssl_certificate v2Hostname 443
        (SubprocessOutcome.raisedBase ("KeyboardInterrupt".toList)) = none := by
  decide

/-- Claim C10 as amended: for every subprocess behaviour other than a raised
non-`Exception` `BaseException` — success, non-zero exit, timeout, or any
`Exception`-class raise — `check_ssl_certificate` returns a string, which is
the stripped stdout on success (return code 0) and an `"Error: "`-prefixed
message otherwise; `KeyboardInterrupt` and its kin propagate (by design:
that is how Ctrl+C during a check reaches the loop's handler). -/
theorem C10_amended :
    ∀ (hostname : List Char) (port : Int) (o : SubprocessOutcome),
      (∀ m, o ≠ SubprocessOutcome.raisedBase m) →
      ∃ s, check_ssl_certificate hostname port o = some s ∧
        ((∃ out err, o = SubprocessOutcome.completed 0 out err ∧ s = strip out) ∨
         (∃ m, s = errTag ++ m)) := by
  intro hostname port o hbase
  cases o with
  | completed rc out err =>
      by_cases hrc : rc = 0
      · subst hrc
        exact ⟨strip out, by simp [check_ssl_certificate], Or.inl ⟨out, err, rfl, rfl⟩⟩
      · exact ⟨errTag ++ strip err, by simp [check_ssl_certificate, hrc],
          Or.inr ⟨strip err, rfl⟩⟩
  | timedOut =>
      refine ⟨errTag ++ ("Command timed out".toList), ?_, Or.inr ⟨_, rfl⟩⟩
      show some ("Error: Command timed out".toList) = _
      decide
  | raisedExc m => exact ⟨errTag ++ m, rfl, Or.inr ⟨m, rfl⟩⟩
  | raisedBase m => exact absurd rfl (hbase m)

/-- Witness for C10 as amended: evaluated at the timeout outcome. -/
theorem C10_amended_witness :
    (∀ m, SubprocessOutcome.timedOut ≠ SubprocessOutcome.raisedBase m) ∧
    (∃ s, check_ssl_certificate v2Hostname v2Port SubprocessOutcome.timedOut = some s ∧
      ((∃ out err, SubprocessOutcome.timedOut = SubprocessOutcome.completed 0 out err ∧
          s = strip out) ∨
       (∃ m, s = errTag ++ m))) :=
  ⟨fun m h => SubprocessOutcome.noConfusion h,
   C10_amended v2Hostname v2Port SubprocessOutcome.timedOut
     (fun m h => SubprocessOutcome.noConfusion h)⟩

/-! ## Claim C5 -/

/-- Claim C5 counterexample: a cycle against an unreachable target does not
yield a `Failure` value "of kind ConnectionError" — the code has no failure
kinds at all.  The outcome of a connection-refusal cycle (pipeline completed
with non-zero exit and stderr text) is the very same plain string as the
outcome of an unrelated in-process `Exception` with the same text, so the
cycle outcome carries no `ConnectionError` categorization. -/
theorem C5_counterexample :
    check_ssl_certificate v2Hostname 443
        (SubprocessOutcome.completed 1 ([]) ("boom".toList)) =
      check_ssl_certificate v2Hostname 443 (SubprocessOutcome.raisedExc ("boom".toList)) ∧
    SubprocessOutcome.completed 1 ([]) ("boom".toList) ≠
      SubprocessOutcome.raisedExc ("boom".toList) := by
  decide

/-- Claim C5 as amended: for every validated V3 configuration and every run
whose target refuses the connection on every cycle (every subprocess
outcome is a completed pipeline with non-zero return code), each cycle's
outcome is an error result — a string prefixed `"Error: "`, not a
kind-tagged `Failure` — the loop never terminates on its own (it polls
unboundedly at the fixed interval when no cancellation arrives), and the
process never crashes. -/
theorem C5_amended :
    ∀ (port interval : Int) (env : Nat → SubprocessOutcome),
      1 ≤ port → port ≤ 65535 → 1 ≤ interval →
      (∀ k, ∃ rc out err, env k = SubprocessOutcome.completed rc out err ∧ rc ≠ 0) →
      v3MainOutcome port interval none = TermOutcome.runsForever ∧
      (∀ cancel m, v3MainOutcome port interval cancel ≠ TermOutcome.crash m) ∧
      (∀ (hostname : List Char) (k : Nat), ∃ m,
        check_ssl_certificate hostname port (env k) = some (errTag ++ m)) := by
  intro port interval env hp1 hp2 hi henv
  have hi' : ¬(interval ≤ 0) := by omega
  have hp' : ¬(port ≤ 0 ∨ 65535 < port) := by omega
  refine ⟨by simp [v3MainOutcome, hi', hp'], ?_, ?_⟩
  · intro cancel m
    cases cancel with
    | none => simp [v3MainOutcome, hi', hp']
    | some q => simp [v3MainOutcome, hi', hp']
  · intro hostname k
    obtain ⟨rc, out, err, hk, hrc⟩ := henv k
    rw [hk]
    exact ⟨strip err, by simp [check_ssl_certificate, hrc]⟩

/-- Witness for C5 as amended: port 443, interval 60, every cycle's pipeline
exiting 1 with stderr `"refused"`. -/
theorem C5_amended_witness :
    ((1 : Int) ≤ 443 ∧ (443 : Int) ≤ 65535 ∧ (1 : Int) ≤ 60) ∧
    (v3MainOutcome 443 60 none = TermOutcome.runsForever ∧
     (∀ cancel m, v3MainOutcome 443 60 cancel ≠ TermOutcome.crash m) ∧
     (∀ (hostname : List Char) (k : Nat), ∃ m,
        check_ssl_certificate hostname 443
          ((fun _ => SubprocessOutcome.completed 1 ([]) ("refused".toList)) k) =
          some (errTag ++ m))) :=
  ⟨by decide,
   C5_amended 443 60 (fun _ => SubprocessOutcome.completed 1 ([]) ("refused".toList))
     (by decide) (by decide) (by decide)
     (fun k => ⟨1, [], ("refused".toList), rfl, by decide⟩)⟩

/-! ## Claim C2 -/

/-- Claim C2 counterexample: `check_count` does NOT equal the number of
Inspector invocations at every cancellation point.  The loop increments
`check_count` (step 0) three steps before it calls `check_ssl_certificate`
(step 3); an interrupt arriving after the first cycle's header print
(cancellation point `(0, 2)`) leaves `check_count = 1` with zero inspector
invocations — the final summary then reports "stopped after 1 checks"
although no check ran. -/
theorem C2_counterexample :
    check_count_at 0 2 = 1 ∧ inspector_calls_at 0 2 = 0 ∧
    check_count_at 0 2 ≠ inspector_calls_at 0 2 := by
  decide

/-- Claim C2 as amended: at every cancellation point `(c, p)` (with `p ≤ 8`
a step boundary of the cancelled cycle), `check_count` never undercounts and
overcounts by at most one: it equals the number of inspector invocations
exactly when the interrupt arrives outside the window between the increment
(step 0 done, `1 ≤ p`) and the inspector call (step 3 done, `4 ≤ p`), i.e.
exactly when `p = 0` or `4 ≤ p`; for `p` in `{1, 2, 3}` it exceeds the
invocation count by exactly one.  This holds for the identical loops of V2
and V3. -/
theorem C2_amended :
    ∀ (c p : Nat), p ≤ 8 →
      inspector_calls_at c p ≤ check_count_at c p ∧
      check_count_at c p ≤ inspector_calls_at c p + 1 ∧
      (check_count_at c p = inspector_calls_at c p ↔ p = 0 ∨ 4 ≤ p) := by
  intro c p hp
  simp only [check_count_at, inspector_calls_at]
  split_ifs <;> omega

/-- Witness for C2 as amended: evaluated at cancellation point `(1, 5)`
(second cycle, interrupted between the result print and the result log
write). -/
theorem C2_amended_witness :
    (5 : Nat) ≤ 8 ∧
    (inspector_calls_at 1 5 ≤ check_count_at 1 5 ∧
     check_count_at 1 5 ≤ inspector_calls_at 1 5 + 1 ∧
     (check_count_at 1 5 = inspector_calls_at 1 5 ↔ (5 : Nat) = 0 ∨ 4 ≤ 5)) :=
  ⟨by decide, C2_amended 1 5 (by decide)⟩

/-! ## Claim C9 -/

/-- Claim C9 (confirmed): `check_ssl_certificate` builds its `bash -c`
command line by direct, unquoted interpolation — the host string appears
verbatim as a contiguous segment of the command — and there exist two host
inputs differing only in shell metacharacters (`"example.com"` versus
`"example.com;"`) whose built commands the shell parses into different
numbers of commands (0 versus 2 `';'` separators, the injected host
appearing at both interpolation sites), a structural difference and not
merely a different connect target. -/
theorem C9_command_interpolation :
    (∀ (hostname : List Char) (port : Int), ∃ pre post,
        buildCmd hostname port = pre ++ hostname ++ post) ∧
    (∃ h₁ h₂ : List Char, stripShellMeta h₁ = stripShellMeta h₂ ∧ h₁ ≠ h₂ ∧
        semicolonCount (buildCmd h₁ 443) = 0 ∧ semicolonCount (buildCmd h₂ 443) = 2) := by
  constructor
  · intro hostname port
    exact ⟨cmdConnect, ':' :: intChars port ++ cmdServername ++ hostname ++ cmdTail, by
      simp [buildCmd, List.append_assoc]⟩
  · exact ⟨("example.com".toList), ("example.com;".toList), by decide, by decide,
      by decide, by decide⟩

/-! ## Trace lemmas for C4 and C7 -/

theorem consoleMsgs_append (a b : List Event) :
    consoleMsgs (a ++ b) = consoleMsgs a ++ consoleMsgs b :=
  List.filterMap_append a b _

theorem logMsgs_append (a b : List Event) :
    logMsgs (a ++ b) = logMsgs a ++ logMsgs b :=
  List.filterMap_append a b _

theorem dropPrompt_append (a b : List (List Char)) :
    dropPrompt (a ++ b) = dropPrompt a ++ dropPrompt b :=
  List.filter_append a b

theorem dropWriteErr_append (a b : List (List Char)) :
    dropWriteErr (a ++ b) = dropWriteErr a ++ dropWriteErr b :=
  List.filter_append a b

theorem flatMapL_append {α β : Type} (l₁ l₂ : List α) (f : α → List β) :
    flatMapL (l₁ ++ l₂) f = flatMapL l₁ f ++ flatMapL l₂ f := by
  induction l₁ with
  | nil => rfl
  | cons a l ih => simp [flatMapL, ih]

theorem flatMapL_singleton {α β : Type} (a : α) (f : α → List β) :
    flatMapL [a] f = f a := by
  simp [flatMapL]

theorem cycleEventsUpTo_succ (wres : Nat → Option (List Char))
    (results cycleTs : Nat → List Char) (n p : Nat) :
    cycleEventsUpTo wres results cycleTs n (p + 1) =
      cycleEventsUpTo wres results cycleTs n p ++ stepEvents wres results cycleTs n p := by
  unfold cycleEventsUpTo
  rw [List.range_succ, flatMapL_append, flatMapL_singleton]

theorem startup_console_ok (interval : Int) (st ss : List Char) :
    consoleMsgs (startupEvents (fun _ => none) interval st ss) =
      [startup_msg interval st ss, prompt] ∧
    logMsgs (startupEvents (fun _ => none) interval st ss) =
      [startup_msg interval st ss] := by
  constructor <;> simp [startupEvents, writeEvents, consoleMsgs, logMsgs]

theorem cycle_console_ok (results cycleTs : Nat → List Char) (n p : Nat)
    (hp : p = 8 ∨ p = 9) :
    consoleMsgs (cycleEventsUpTo (fun _ => none) results cycleTs n p) =
      [check_header n (cycleTs n), results n, dash80] ∧
    logMsgs (cycleEventsUpTo (fun _ => none) results cycleTs n p) =
      [check_header n (cycleTs n), results n, dash80] := by
  have h8 : List.range 8 = [0, 1, 2, 3, 4, 5, 6, 7] := rfl
  have h9 : List.range 9 = [0, 1, 2, 3, 4, 5, 6, 7, 8] := rfl
  rcases hp with h | h <;> subst h <;> constructor <;>
    simp [cycleEventsUpTo, h8, h9, flatMapL, stepEvents, writeEvents, consoleMsgs, logMsgs]

theorem final_console_ok (st e : List Char) (c p : Nat) :
    consoleMsgs (finalEvents (fun _ => none) st e c p) =
      [final_msg e (check_count_at c p), savedMsg st, eq80] ∧
    logMsgs (finalEvents (fun _ => none) st e c p) =
      [final_msg e (check_count_at c p), savedMsg st, eq80] := by
  constructor <;> simp [finalEvents, writeEvents, consoleMsgs, logMsgs]

theorem cycles_console_eq_log (results cycleTs : Nat → List Char) (c : Nat) :
    consoleMsgs (flatMapL (List.range c)
        (fun k => cycleEventsUpTo (fun _ => none) results cycleTs (k + 1) 9)) =
    logMsgs (flatMapL (List.range c)
        (fun k => cycleEventsUpTo (fun _ => none) results cycleTs (k + 1) 9)) := by
  induction c with
  | zero => rfl
  | succ c ih =>
      rw [List.range_succ, flatMapL_append, consoleMsgs_append, logMsgs_append, ih,
          flatMapL_singleton, (cycle_console_ok results cycleTs (c + 1) 9 (Or.inr rfl)).1,
          (cycle_console_ok results cycleTs (c + 1) 9 (Or.inr rfl)).2]

theorem dropPrompt_pair (s : List Char) :
    dropPrompt [s, prompt] = dropPrompt [s] := by
  by_cases h : s = prompt <;> simp [dropPrompt, h]

/-! ## Claim C4 -/

/-- Claim C4 counterexample: a console-only line exists.  In a concrete
all-writes-succeeding run (cancelled right at the start of cycle 1), the
prompt `"Press Ctrl+C to stop\n"` is printed to the console but never passed
to `write_to_file`, so it is absent from the log — the claim's "no
console-only lines" is false. -/
theorem C4_counterexample :
    prompt ∈ consoleMsgs (runTrace 60 ("T".toList) ("S".toList) ("E".toList)
        (fun _ => ("t".toList)) (fun _ => ("r".toList)) (fun _ => none) 0 0) ∧
    prompt ∉ logMsgs (runTrace 60 ("T".toList) ("S".toList) ("E".toList)
        (fun _ => ("t".toList)) (fun _ => ("r".toList)) (fun _ => none) 0 0) := by
  decide

/-- Claim C4 as amended: with a log sink configured and every log write
succeeding, and cancellation arriving in the sleep phase (so that no print
is left without its paired write), the console stream and the log stream
carry the same messages in the same order, except for the single
`"Press Ctrl+C to stop\n"` prompt, which is console-only.  (When the
interrupt instead lands between a print and its paired log write, that
in-flight message reaches the console only; and a failed write replaces its
log line with a console error report — hence the prompt-discarding
comparison below.) -/
theorem C4_amended :
    ∀ (interval : Int) (startTime startedTs endTs : List Char)
      (cycleTs results : Nat → List Char) (c : Nat),
      dropPrompt (consoleMsgs (runTrace interval startTime startedTs endTs cycleTs results
          (fun _ => none) c 8)) =
      dropPrompt (logMsgs (runTrace interval startTime startedTs endTs cycleTs results
          (fun _ => none) c 8)) := by
  intro interval st ss e cycleTs results c
  unfold runTrace
  rw [consoleMsgs_append, consoleMsgs_append, consoleMsgs_append,
      logMsgs_append, logMsgs_append, logMsgs_append,
      (startup_console_ok interval st ss).1, (startup_console_ok interval st ss).2,
      cycles_console_eq_log results cycleTs c,
      (cycle_console_ok results cycleTs (c + 1) 8 (Or.inl rfl)).1,
      (cycle_console_ok results cycleTs (c + 1) 8 (Or.inl rfl)).2,
      (final_console_ok st e c 8).1, (final_console_ok st e c 8).2,
      dropPrompt_append, dropPrompt_append, dropPrompt_append,
      dropPrompt_append, dropPrompt_append, dropPrompt_append,
      dropPrompt_pair]

/-! ## Claim C7 -/

theorem dropWriteErr_writeEvents_console (wres : Nat → Option (List Char)) (j : Nat)
    (content : List Char) :
    dropWriteErr (consoleMsgs (writeEvents wres j content)) = [] := by
  cases h : wres j with
  | none => simp [writeEvents, h, consoleMsgs, dropWriteErr]
  | some e => simp [writeEvents, h, consoleMsgs, dropWriteErr, List.take_left]

theorem step_dropWriteErr_invariant (wres wres' : Nat → Option (List Char))
    (results cycleTs : Nat → List Char) (n s : Nat) :
    dropWriteErr (consoleMsgs (stepEvents wres results cycleTs n s)) =
    dropWriteErr (consoleMsgs (stepEvents wres' results cycleTs n s)) := by
  rcases s with _ | _ | _ | _ | _ | _ | _ | _ | s <;>
    first
      | rfl
      | (simp only [stepEvents]
         rw [dropWriteErr_writeEvents_console, dropWriteErr_writeEvents_console])

theorem cycleUpTo_dropWriteErr_invariant (wres wres' : Nat → Option (List Char))
    (results cycleTs : Nat → List Char) (n p : Nat) :
    dropWriteErr (consoleMsgs (cycleEventsUpTo wres results cycleTs n p)) =
    dropWriteErr (consoleMsgs (cycleEventsUpTo wres' results cycleTs n p)) := by
  induction p with
  | zero => rfl
  | succ p ih =>
      rw [cycleEventsUpTo_succ, cycleEventsUpTo_succ, consoleMsgs_append, consoleMsgs_append,
          dropWriteErr_append, dropWriteErr_append, ih,
          step_dropWriteErr_invariant wres wres' results cycleTs n p]

theorem startup_dropWriteErr_invariant (wres wres' : Nat → Option (List Char))
    (interval : Int) (st ss : List Char) :
    dropWriteErr (consoleMsgs (startupEvents wres interval st ss)) =
    dropWriteErr (consoleMsgs (startupEvents wres' interval st ss)) := by
  unfold startupEvents
  rw [consoleMsgs_append, consoleMsgs_append, consoleMsgs_append, consoleMsgs_append,
      dropWriteErr_append, dropWriteErr_append, dropWriteErr_append, dropWriteErr_append,
      dropWriteErr_writeEvents_console, dropWriteErr_writeEvents_console]

theorem final_dropWriteErr_invariant (wres wres' : Nat → Option (List Char))
    (st e : List Char) (c p : Nat) :
    dropWriteErr (consoleMsgs (finalEvents wres st e c p)) =
    dropWriteErr (consoleMsgs (finalEvents wres' st e c p)) := by
  unfold finalEvents
  rw [consoleMsgs_append, consoleMsgs_append, consoleMsgs_append, consoleMsgs_append,
      consoleMsgs_append, consoleMsgs_append,
      dropWriteErr_append, dropWriteErr_append, dropWriteErr_append, dropWriteErr_append,
      dropWriteErr_append, dropWriteErr_append,
      dropWriteErr_writeEvents_console, dropWriteErr_writeEvents_console,
      dropWriteErr_writeEvents_console, dropWriteErr_writeEvents_console,
      dropWriteErr_writeEvents_console, dropWriteErr_writeEvents_console]

theorem cycles_dropWriteErr_invariant (wres wres' : Nat → Option (List Char))
    (results cycleTs : Nat → List Char) (c : Nat) :
    dropWriteErr (consoleMsgs (flatMapL (List.range c)
        (fun k => cycleEventsUpTo wres results cycleTs (k + 1) 9))) =
    dropWriteErr (consoleMsgs (flatMapL (List.range c)
        (fun k => cycleEventsUpTo wres' results cycleTs (k + 1) 9))) := by
  induction c with
  | zero => rfl
  | succ c ih =>
      rw [List.range_succ, flatMapL_append, flatMapL_append,
          consoleMsgs_append, consoleMsgs_append, dropWriteErr_append, dropWriteErr_append,
          ih, flatMapL_singleton, flatMapL_singleton,
          cycleUpTo_dropWriteErr_invariant wres wres' results cycleTs (c + 1) 9]

theorem runTrace_dropWriteErr_invariant (interval : Int)
    (st ss e : List Char) (cycleTs results : Nat → List Char)
    (wres wres' : Nat → Option (List Char)) (c p : Nat) :
    dropWriteErr (consoleMsgs (runTrace interval st ss e cycleTs results wres c p)) =
    dropWriteErr (consoleMsgs (runTrace interval st ss e cycleTs results wres' c p)) := by
  unfold runTrace
  rw [consoleMsgs_append, consoleMsgs_append, consoleMsgs_append,
      consoleMsgs_append, consoleMsgs_append, consoleMsgs_append,
      dropWriteErr_append, dropWriteErr_append, dropWriteErr_append,
      dropWriteErr_append, dropWriteErr_append, dropWriteErr_append,
      startup_dropWriteErr_invariant wres wres' interval st ss,
      cycles_dropWriteErr_invariant wres wres' results cycleTs c,
      cycleUpTo_dropWriteErr_invariant wres wres' results cycleTs (c + 1) p,
      final_dropWriteErr_invariant wres wres' st e c p]

/-- Claim C7 (confirmed): when the `j`-th log write of a run fails (the
`open`/`write` raises an `Exception` with text `e`), `write_to_file` catches
it and emits exactly one console report `"Error writing to file: " ++ e`,
writes nothing to the log for that content, and raises nothing; and the
run's console stream of ordinary messages (everything except such write-error
reports) is identical to that of a run with any other write-failure pattern
— in particular a fully-succeeding one — so the polling loop's cycles,
prints and inspector calls proceed unaffected by sink write failures. -/
theorem C7_write_failure_nonfatal :
    ∀ (wres : Nat → Option (List Char)) (j : Nat) (e content : List Char),
      wres j = some e →
      writeEvents wres j content = [⟨Sink.console, writeErrTag ++ e⟩] ∧
      (∀ (interval : Int) (startTime startedTs endTs : List Char)
         (cycleTs results : Nat → List Char) (wres' : Nat → Option (List Char))
         (c p : Nat),
        dropWriteErr (consoleMsgs
          (runTrace interval startTime startedTs endTs cycleTs results wres c p)) =
        dropWriteErr (consoleMsgs
          (runTrace interval startTime startedTs endTs cycleTs results wres' c p))) := by
  intro wres j e content h
  constructor
  · simp [writeEvents, h]
  · intro interval st ss en cycleTs results wres' c p
    exact runTrace_dropWriteErr_invariant interval st ss en cycleTs results wres wres' c p

/-- Witness for C7: a write-failure pattern that always fails with
`"denied"`, at write call 0. -/
theorem C7_write_failure_nonfatal_witness :
    ((fun _ : Nat => some ("denied".toList)) 0 = some ("denied".toList)) ∧
    writeEvents (fun _ => some ("denied".toList)) 0 ("x".toList) =
      [⟨Sink.console, writeErrTag ++ ("denied".toList)⟩] :=
  ⟨rfl, (C7_write_failure_nonfatal (fun _ => some ("denied".toList)) 0
      ("denied".toList) ("x".toList) rfl).1⟩

end SSLChecker
